import Mathlib

/-!
Shallow embedding of the vpinfe front-end shell:
  - src/frontend/qt_window_manager.py  (window launcher, readiness prober,
    lifecycle controller, overlay controller, native dialog bridge)
  - src/managerui/pages/vpinfe_config.py  (configuration panel renderer)

Machine integers are modelled as Int/Nat; Python exceptions are modelled with
Option (none = an uncaught exception propagating out of the modelled code).
-/

namespace VPinFE

/-! ## Python string primitives used by the source -/

/-- Characters removed by Python str.strip() with no arguments (ASCII whitespace). -/
def isPyWhitespace (c : Char) : Bool :=
  c = ' ' || c = '\t' || c = '\n' || c = '\r' || c = Char.ofNat 11 || c = Char.ofNat 12

/-- Python str.strip(): drop leading and trailing whitespace. -/
def pyStrip (s : String) : String :=
  String.mk (((s.toList.dropWhile isPyWhitespace).reverse.dropWhile isPyWhitespace).reverse)

/-- Digit run accepted by Python int(): digits with single underscores allowed
between digits (no leading, trailing or doubled underscore). The accumulator
holds the value parsed so far. -/
def pyDigitsAux : Nat → List Char → Option Nat
  | acc, [] => some acc
  | acc, '_' :: c :: rest =>
      if c.isDigit then pyDigitsAux (acc * 10 + (c.toNat - 48)) rest else none
  | _, ['_'] => none
  | acc, c :: rest =>
      if c.isDigit then pyDigitsAux (acc * 10 + (c.toNat - 48)) rest else none

/-- Nonempty digit run: first character must be a digit. -/
def pyParseDigits : List Char → Option Nat
  | [] => none
  | c :: rest => if c.isDigit then pyDigitsAux (c.toNat - 48) rest else none

/-- Python int(str) applied to an already stripped string: optional sign then
a digit run; none models a ValueError. -/
def pyInt (s : String) : Option Int :=
  match s.toList with
  | '+' :: rest => (pyParseDigits rest).map (fun n => (n : Int))
  | '-' :: rest => (pyParseDigits rest).map (fun n => -(n : Int))
  | l => (pyParseDigits l).map (fun n => (n : Int))

/-! ## Display sanitization (qt_window_manager.py lines 358-372) -/

/-- The fixed sentinel list of qt_window_manager.py line 364:
screen_id_str in ['False', 'None', 'True']. -/
def sentinelStrings : List String := ["False", "None", "True"]

/-- Lines 364-372 of qt_window_manager.py: sentinel strings map to 0 with no
warning printed; otherwise int(screen_id_str), with a ValueError caught,
a warning printed and a fallback to 0.  Returns (screen_id, warning printed). -/
def sanitizeScreenId (s : String) : Int × Bool :=
  if s ∈ sentinelStrings then (0, false)
  else match pyInt s with
    | some n => (n, false)
    | none => (0, true)

/-! ## Window launcher (qt_window_manager.py lines 317-407) -/

/-- A monitor as enumerated by screeninfo.get_monitors(). -/
structure Monitor where
  x : Int
  y : Int
  width : Int
  height : Int
deriving DecidableEq, Repr

/-- The observable fields of a created _VPinWindow. -/
structure WindowDesc where
  name : String
  url : String
  x : Int
  y : Int
  width : Int
  height : Int
deriving DecidableEq, Repr

/-- The three logical display roles, in the creation order of line 352:
bg, dmd, table (table last so it gets focus). -/
inductive Role
  | bg
  | dmd
  | table
deriving DecidableEq, Repr

/-- The window name used for the URL query parameter and window title. -/
def roleName : Role → String
  | .bg => "bg"
  | .dmd => "dmd"
  | .table => "table"

/-- The [Displays] key read for each role (line 352-356). -/
def roleKey : Role → String
  | .bg => "bgscreenid"
  | .dmd => "dmdscreenid"
  | .table => "tablescreenid"

/-- Python list indexing lst[i]: non-negative indices index from the front,
negative indices from the back; none models an IndexError. -/
def pyListGet (l : List Monitor) (i : Int) : Option Monitor :=
  if 0 ≤ i then l.get? i.toNat
  else if (-i).toNat ≤ l.length then l.get? (l.length - (-i).toNat)
  else none

/-- The window constructed at lines 388-398: url is
base_url:theme_assets_port/web/splash.html?window=name. -/
def mkWindow (r : Role) (baseUrl : String) (port : Nat) (x y w h : Int) : WindowDesc :=
  { name := roleName r
    url := baseUrl ++ ":" ++ toString port ++ "/web/splash.html?window=" ++ roleName r
    x := x, y := y, width := w, height := h }

/-- One iteration of the launch loop (lines 358-399) for role r.
cfg gives the raw [Displays] string for each role.  Result:
none = IndexError escaped the loop; some none = this role skipped
(blank key, or index out of range with monitors enumerated);
some (some w) = window w created. -/
def processRole (monitors : List Monitor) (baseUrl : String) (port : Nat)
    (cfg : Role → String) (r : Role) : Option (Option WindowDesc) :=
  let s := pyStrip (cfg r)
  if s = "" then some none
  else
    let sid := (sanitizeScreenId s).1
    if monitors ≠ [] ∧ (monitors.length : Int) ≤ sid then some none
    else if monitors.isEmpty then
      some (some (mkWindow r baseUrl port 0 0 1920 1080))
    else
      match pyListGet monitors sid with
      | none => none
      | some m => some (some (mkWindow r baseUrl port m.x m.y m.width m.height))

/-- The launch loop over the three roles in source order, collecting the
created windows; none = an uncaught IndexError aborted launch_all_windows. -/
def launch_list (monitors : List Monitor) (baseUrl : String) (port : Nat)
    (cfg : Role → String) : Option (List WindowDesc) :=
  match processRole monitors baseUrl port cfg .bg with
  | none => none
  | some obg =>
    match processRole monitors baseUrl port cfg .dmd with
    | none => none
    | some odmd =>
      match processRole monitors baseUrl port cfg .table with
      | none => none
      | some otab => some (obg.toList ++ odmd.toList ++ otab.toList)

/-- launch_all_windows on a fresh manager: returns the created window list and
the exit flag, which lines 401-404 set exactly when no window was created.
none models an exception escaping the call. -/
def launch_all_windows (monitors : List Monitor) (baseUrl : String) (port : Nat)
    (cfg : Role → String) : Option (List WindowDesc × Bool) :=
  (launch_list monitors baseUrl port cfg).map (fun ws => (ws, ws.isEmpty))

/-- Replace one role's configured string. -/
def overrideCfg (cfg : Role → String) (r : Role) (v : String) : Role → String :=
  fun r2 => if r2 = r then v else cfg r2

/-! ## Readiness prober: _wait_for_server (qt_window_manager.py lines 46-58)

Time is modelled in discrete ticks.  resp k is the outcome of the k-th
urlopen attempt; cost k is the time that attempt itself consumes before
failing (the urlopen timeout is 1 second, so cost is bounded in reality,
but the model leaves it arbitrary). -/

/-- Outcome of one urlopen attempt. -/
inductive Outcome
  | ok
  | httpError
  | exn
deriving DecidableEq, Repr

/-- The polling loop body: while time.time() < deadline, attempt; a response
(ok, or an HTTPError: the server is up) returns True at once; any other
exception sleeps for the interval and retries.  fuel bounds recursion; with
fuel > timeout - elapsed and a positive interval the bound is never the
reason the loop stops. -/
def waitGo (resp : Nat → Outcome) (cost : Nat → Nat) (interval timeout : Nat) :
    Nat → Nat → Nat → Bool
  | 0, _, _ => false
  | fuel + 1, k, e =>
    if e < timeout then
      match resp k with
      | .ok => true
      | .httpError => true
      | .exn => waitGo resp cost interval timeout fuel (k + 1) (e + cost k + interval)
    else false

/-- _wait_for_server: poll until a response arrives or the deadline passes.
The real code never raises: urlopen failures are all caught. -/
def wait_for_server (resp : Nat → Outcome) (cost : Nat → Nat)
    (interval timeout : Nat) : Bool :=
  waitGo resp cost interval timeout (timeout + 1) 0 0

/-- Time elapsed when attempt k begins: every earlier failed attempt consumed
its own cost plus one sleep interval. -/
def elapsedBefore (cost : Nat → Nat) (interval : Nat) : Nat → Nat
  | 0 => 0
  | k + 1 => elapsedBefore cost interval k + cost k + interval

/-! ## Lifecycle controller (qt_window_manager.py lines 409-419, 458-460) -/

/-- The manager state observable by terminate_all / is_running: the tracked
window list (names) and the threading.Event exit flag. -/
structure ManagerState where
  windows : List String
  exitFlagSet : Bool
deriving DecidableEq, Repr

/-- is_running (lines 458-460): bool(self._windows) and not exit_event.is_set(). -/
def is_running (s : ManagerState) : Bool :=
  !s.windows.isEmpty && !s.exitFlagSet

/-- terminate_all (lines 409-419): close every tracked window (errors caught),
clear the tracked list, set the exit flag.  The second component lists the
windows that received close, in order. -/
def terminate_all (s : ManagerState) : ManagerState × List String :=
  (⟨[], true⟩, s.windows)

/-! ## Context menu / overlay controller: _open_manager (lines 235-284) -/

/-- The manager overlay dialog; only visibility is observable here. -/
structure Overlay where
  visible : Bool
deriving DecidableEq, Repr

/-- Per-primary-window overlay state: the _manager_dialog attribute (absent
before the first open) and a count of dialogs created so far. -/
structure PrimaryWindowState where
  managerDialog : Option Overlay
  dialogsCreated : Nat
deriving DecidableEq, Repr

/-- What _open_manager did on a call. -/
inductive OpenAction
  | focusedExisting
  | createdNew
deriving DecidableEq, Repr

/-- _open_manager: if a dialog attribute exists and isVisible(), raise and
activate it and return; otherwise build a fresh dialog and show() it. -/
def open_manager (s : PrimaryWindowState) : PrimaryWindowState × OpenAction :=
  match s.managerDialog with
  | some d =>
    if d.visible then (s, .focusedExisting)
    else (⟨some ⟨true⟩, s.dialogsCreated + 1⟩, .createdNew)
  | none => (⟨some ⟨true⟩, s.dialogsCreated + 1⟩, .createdNew)

/-! ## Native dialog bridge (qt_window_manager.py lines 482-523) -/

/-- Outcome of the QFileDialog call inside _DialogWorker._show_dialog. -/
inductive ChooserOutcome
  | chosen (path : String)
  | canceled
  | raised
deriving DecidableEq, Repr

/-- _DialogWorker._show_dialog (lines 490-501): path starts as the empty
string; the chooser runs inside try/except (exceptions are printed, not
re-raised; Qt returns the empty string on cancel); then callback(path) is
invoked exactly once.  The returned string is the one value handed back. -/
def show_dialog (mode : String) (outcome : ChooserOutcome) : String :=
  match mode, outcome with
  | _, .chosen p => p
  | _, .canceled => ""
  | _, .raised => ""

/-- The names bound at module level in qt_window_manager.py (imports at lines
18-39 plus the module-level defs).  Python resolves a global name inside a
function body against exactly this set at call time. -/
def qtModuleNames : List String :=
  ["annotations", "sys", "time", "threading", "urllib", "queue", "Optional",
   "Qt", "QUrl", "QTimer", "Signal", "QObject", "QDesktopServices", "QAction",
   "QApplication", "QMenu", "QDialog", "QVBoxLayout", "QFileDialog",
   "QWebEngineView", "QWebEngineSettings", "QWebEnginePage",
   "QWebEngineContextMenuRequest", "get_monitors", "_wait_for_server",
   "_DebugPage", "_VPinWindow", "QtWindowManager", "_DialogWorker",
   "_global_dialog_bridge", "setup_native_dialogs", "pick_native_path"]

/-- How a call to pick_native_path ends. -/
inductive PickResult
  | errBridgeMissing
  | raisesNameError (missing : String)
  | proceedsToDialog
deriving DecidableEq, Repr

/-- pick_native_path (lines 510-523): with no bridge set up it prints an error
and returns None (no exception).  Otherwise the body's first statement is
loop = asyncio.get_running_loop(); the lookup of the global name asyncio
must succeed for execution to reach the dialog request. -/
def pick_native_path (bridgeReady : Bool) : PickResult :=
  if bridgeReady = false then .errBridgeMissing
  else if "asyncio" ∈ qtModuleNames then .proceedsToDialog
  else .raisesNameError "asyncio"

/-! ## Configuration panel (src/managerui/pages/vpinfe_config.py)

The settings store is behind IniConfig (common/iniconfig.py, not under src/).
Modelled from the spec: the Settings Store is an ordered mapping of section
name to an ordered mapping of key to string value, flushed to disk in full on
save; a value written through config.config.set is stored in its Python
string form (str(value)). -/

/-- ASCII lowercase of one character, as Python str.lower() does on ASCII. -/
def pyLowerChar (c : Char) : Char :=
  if 'A' ≤ c ∧ c ≤ 'Z' then Char.ofNat (c.toNat + 32) else c

/-- Python str.lower() (the configuration values are ASCII). -/
def pyLower (s : String) : String :=
  String.mk (s.toList.map pyLowerChar)

/-- Does cs start with ps? -/
def listStartsWith : List Char → List Char → Bool
  | _, [] => true
  | [], _ :: _ => false
  | c :: cs, p :: ps => c = p && listStartsWith cs ps

/-- Does cs contain ps as a contiguous run? -/
def listContainsRun : List Char → List Char → Bool
  | cs, ps =>
    if listStartsWith cs ps then true
    else match cs with
      | [] => false
      | _ :: rest => listContainsRun rest ps

/-- Python substring containment: pat in s. -/
def strContains (s pat : String) : Bool :=
  listContainsRun s.toList pat.toList

/-- Boolean tokens recognized as true (vpinfe_config.py line 173). -/
def trueTokens : List String := ["true", "yes", "on", "1"]

/-- Boolean tokens recognized as false (vpinfe_config.py line 176). -/
def falseTokens : List String := ["false", "no", "off", "0"]

/-- Sections excluded from the panel (vpinfe_config.py line 71). -/
def IGNORED_SECTIONS : List String := ["VPSdb"]

/-- The value held by a rendered input element: a ui.switch holds a Python
bool, ui.select and ui.input hold strings. -/
inductive WVal
  | bool (b : Bool)
  | str (s : String)
deriving DecidableEq, Repr

/-- Python str() of a widget value: str(True) = "True", str(False) = "False",
a string is itself. -/
def pyStr : WVal → String
  | .bool true => "True"
  | .bool false => "False"
  | .str s => s

/-- Lines 168-184: the value a rendered field starts with.  Values matching
the boolean token sets (after str(value).lower()) render as a switch holding
the parsed bool; every other widget holds the string itself. -/
def initialWidgetVal (value : String) : WVal :=
  let sv := pyLower value
  if sv ∈ trueTokens then .bool true
  else if sv ∈ falseTokens then .bool false
  else .str value

/-- The widget kind chosen for a key (lines 180-221).  pathPicker does not
occur in this renderer; it is included so the spec's claimed classification
is expressible for comparison. -/
inductive Widget
  | toggle (value : Bool)
  | dropdown (options : List String) (value : String)
  | pathPicker (isFilePicker : Bool)
  | textInput (value : String)
deriving DecidableEq, Repr

/-- Lines 180-221: precedence is boolean switch, then the Settings-section
keys startup_collection and theme as dropdowns (current value appended to
the option list when missing), then a plain text input for everything else. -/
def classifyWidget (collectionOptions themeOptions : List String)
    (secName key value : String) : Widget :=
  let sv := pyLower value
  if sv ∈ trueTokens then .toggle true
  else if sv ∈ falseTokens then .toggle false
  else if secName = "Settings" ∧ key = "startup_collection" then
    .dropdown
      (if value ≠ "" ∧ value ∉ collectionOptions
        then collectionOptions ++ [value] else collectionOptions) value
  else if secName = "Settings" ∧ key = "theme" then
    .dropdown
      (if value ≠ "" ∧ value ∉ themeOptions
        then themeOptions ++ [value] else themeOptions) value
  else .textInput value

/-- _get_collection_names (lines 51-57): an empty option plus the collection
names, or just the empty option if reading the collections file raised. -/
def get_collection_names (collectionsOnDisk : Option (List String)) : List String :=
  match collectionsOnDisk with
  | some names => [""] ++ names
  | none => [""]

/-- A heuristic following the spec's words only (not the source): a key is
path-like when its name contains a path-like substring such as path or dir.
Used to express the spec's claimed picker branch. -/
def specPathLike (key : String) : Bool :=
  strContains key "path" || strContains key "dir"

/-- The in-memory settings store, per the spec's data model: ordered sections
of ordered key/value string pairs. -/
abbrev IniSection := List (String × String)

/-- The full store. -/
abbrev Store := List (String × IniSection)

/-- Replace the value of an existing key inside a section. -/
def setKey (sec : IniSection) (key v : String) : IniSection :=
  sec.map (fun kv => if kv.1 = key then (key, v) else kv)

/-- config.config.set(section, key, v): replace the value under the section. -/
def storeSet (st : Store) (secName key v : String) : Store :=
  st.map (fun s => if s.1 = secName then (s.1, setKey s.2 key v) else s)

/-- Read one key back from the store. -/
def readKey (st : Store) (secName key : String) : Option String :=
  match st.find? (fun s => s.1 = secName) with
  | some s => (s.2.find? (fun kv => kv.1 = key)).map Prod.snd
  | none => none

/-- render_panel's inputs dictionary: every key of every non-ignored section,
paired with the value its rendered widget holds (lines 122-221). -/
def renderedInputs (st : Store) : List (String × List (String × WVal)) :=
  (st.filter (fun s => s.1 ∉ IGNORED_SECTIONS)).map
    (fun s => (s.1, s.2.map (fun kv => (kv.1, initialWidgetVal kv.2))))

/-- save_config (lines 128-134): for every section and key in inputs, call
config.config.set(section, key, inp.value); then write the whole store. -/
def save_config (st : Store) (inputs : List (String × List (String × WVal))) : Store :=
  inputs.foldl
    (fun acc sec =>
      sec.2.foldl (fun acc2 kv => storeSet acc2 sec.1 kv.1 (pyStr kv.2)) acc)
    st

/-- Open the panel on a store and hit Save with no edits: what the claimed
round-trip performs for the value already under each key. -/
def saveRoundTrip (st : Store) : Store :=
  save_config st (renderedInputs st)

/-! ## Helper lemmas -/

theorem roleName_inj : ∀ a b : Role, roleName a = roleName b → a = b := by
  intro a b
  cases a <;> cases b <;> simp [roleName]

theorem processRole_blank {m : List Monitor} {b : String} {p : Nat}
    {cfg : Role → String} {r : Role} (h : pyStrip (cfg r) = "") :
    processRole m b p cfg r = some none := by
  simp [processRole, h]

theorem processRole_oob {m : List Monitor} {b : String} {p : Nat}
    {cfg : Role → String} {r : Role} (hm : m ≠ []) (hs : pyStrip (cfg r) ≠ "")
    (hge : (m.length : Int) ≤ (sanitizeScreenId (pyStrip (cfg r))).1) :
    processRole m b p cfg r = some none := by
  simp [processRole, hs, hm, hge]

theorem processRole_cfg_eq {m : List Monitor} {b : String} {p : Nat}
    {cfg cfg2 : Role → String} {r : Role} (h : cfg r = cfg2 r) :
    processRole m b p cfg r = processRole m b p cfg2 r := by
  unfold processRole
  rw [h]

theorem launch_list_congr {m : List Monitor} {b : String} {p : Nat}
    {cfg cfg2 : Role → String}
    (h : ∀ r, processRole m b p cfg r = processRole m b p cfg2 r) :
    launch_list m b p cfg = launch_list m b p cfg2 := by
  unfold launch_list
  rw [h .bg, h .dmd, h .table]

theorem processRole_name {m : List Monitor} {b : String} {p : Nat}
    {cfg : Role → String} {r : Role} {w : WindowDesc}
    (h : processRole m b p cfg r = some (some w)) : w.name = roleName r := by
  unfold processRole at h
  simp only [] at h
  by_cases h1 : pyStrip (cfg r) = ""
  · rw [if_pos h1] at h
    simp at h
  · rw [if_neg h1] at h
    by_cases h2 : m ≠ [] ∧ (m.length : Int) ≤ (sanitizeScreenId (pyStrip (cfg r))).1
    · rw [if_pos h2] at h
      simp at h
    · rw [if_neg h2] at h
      by_cases h3 : m.isEmpty
      · rw [if_pos h3] at h
        simp only [Option.some.injEq] at h
        subst h
        rfl
      · rw [if_neg h3] at h
        cases hg : pyListGet m (sanitizeScreenId (pyStrip (cfg r))).1 with
        | none =>
          rw [hg] at h
          simp at h
        | some mm =>
          rw [hg] at h
          simp only [Option.some.injEq] at h
          subst h
          rfl

theorem launch_list_mem {m : List Monitor} {b : String} {p : Nat}
    {cfg : Role → String} {ws : List WindowDesc} {w : WindowDesc}
    (hws : launch_list m b p cfg = some ws) (hw : w ∈ ws) :
    ∃ r, processRole m b p cfg r = some (some w) := by
  unfold launch_list at hws
  cases hbg : processRole m b p cfg .bg with
  | none => rw [hbg] at hws; simp at hws
  | some obg =>
    rw [hbg] at hws
    cases hdmd : processRole m b p cfg .dmd with
    | none => rw [hdmd] at hws; simp at hws
    | some odmd =>
      rw [hdmd] at hws
      cases htab : processRole m b p cfg .table with
      | none => rw [htab] at hws; simp at hws
      | some otab =>
        rw [htab] at hws
        simp only [Option.some.injEq] at hws
        subst hws
        rcases List.mem_append.1 hw with h1 | h3
        · rcases List.mem_append.1 h1 with h1a | h1b
          · exact ⟨.bg, by rw [hbg, Option.mem_toList.1 h1a]⟩
          · exact ⟨.dmd, by rw [hdmd, Option.mem_toList.1 h1b]⟩
        · exact ⟨.table, by rw [htab, Option.mem_toList.1 h3]⟩

theorem elapsedBefore_mono (cost : Nat → Nat) (interval : Nat) :
    ∀ k j, j ≤ k → elapsedBefore cost interval j ≤ elapsedBefore cost interval k := by
  intro k
  induction k with
  | zero =>
    intro j hj
    have : j = 0 := Nat.le_zero.1 hj
    subst this
    exact Nat.le_refl _
  | succ n ih =>
    intro j hj
    rcases Nat.lt_or_ge j (n + 1) with hlt | hge
    · have h1 := ih j (Nat.lt_succ_iff.1 hlt)
      rw [elapsedBefore]
      omega
    · have : j = n + 1 := Nat.le_antisymm hj hge
      subst this
      exact Nat.le_refl _

theorem elapsedBefore_ge (cost : Nat → Nat) (interval : Nat) (hi : 1 ≤ interval) :
    ∀ k, k ≤ elapsedBefore cost interval k := by
  intro k
  induction k with
  | zero => exact Nat.le_refl _
  | succ n ih =>
    rw [elapsedBefore]
    omega

theorem waitGo_all_exn (resp : Nat → Outcome) (cost : Nat → Nat)
    (interval timeout : Nat) (h : ∀ k, resp k = Outcome.exn) :
    ∀ fuel k e, waitGo resp cost interval timeout fuel k e = false := by
  intro fuel
  induction fuel with
  | zero => intro k e; rfl
  | succ f ih =>
    intro k e
    simp only [waitGo, h k]
    split
    · exact ih _ _
    · rfl

theorem waitGo_first_resp (resp : Nat → Outcome) (cost : Nat → Nat)
    (interval timeout k : Nat)
    (hfirst : ∀ i, i < k → resp i = Outcome.exn) (hk : resp k ≠ Outcome.exn)
    (he : elapsedBefore cost interval k < timeout) :
    ∀ fuel j, j ≤ k → k - j < fuel →
      waitGo resp cost interval timeout fuel j (elapsedBefore cost interval j) = true := by
  intro fuel
  induction fuel with
  | zero => intro j hj hf; omega
  | succ f ih =>
    intro j hj hf
    have hjT : elapsedBefore cost interval j < timeout :=
      Nat.lt_of_le_of_lt (elapsedBefore_mono cost interval k j hj) he
    simp only [waitGo]
    rw [if_pos hjT]
    rcases Nat.eq_or_lt_of_le hj with heq | hlt
    · subst heq
      cases hr : resp j with
      | ok => rfl
      | httpError => rfl
      | exn => exact absurd hr hk
    · rw [hfirst j hlt]
      have hrw : elapsedBefore cost interval j + cost j + interval
          = elapsedBefore cost interval (j + 1) := rfl
      rw [hrw]
      exact ih (j + 1) hlt (by omega)

/-! ## Claim theorems -/

/-- C2 (code_bug): evaluating the dialog bridge at the failing input.  With no
bridge initialized, pick_native_path logs an error and returns None without
raising, as the claim says.  But with the bridge initialized, the body's first
statement looks up the global name asyncio, which qt_window_manager.py never
imports, so the call raises NameError before any dialog is requested: the
handback is never invoked and an exception propagates to the caller,
contradicting the claim.  _DialogWorker._show_dialog itself does hand back the
chosen path, or the empty string on cancel or on a caught internal error. -/
theorem dialog_bridge_code_bug :
    pick_native_path false = PickResult.errBridgeMissing
    ∧ pick_native_path true = PickResult.raisesNameError "asyncio"
    ∧ ("asyncio" ∈ qtModuleNames) = False
    ∧ show_dialog "folder" ChooserOutcome.raised = ""
    ∧ show_dialog "file" ChooserOutcome.canceled = ""
    ∧ show_dialog "folder" (ChooserOutcome.chosen "/home/u/tables") = "/home/u/tables" := by
  refine ⟨by decide, by decide, by decide, rfl, rfl, rfl⟩

/-- C8: is_running is true iff at least one window is tracked and the exit
flag is unset; terminate_all closes every tracked window, clears the tracked
set and sets the exit flag; terminate_all then is_running yields false;
terminate_all is idempotent and safe on an empty window list. -/
theorem running_terminate_spec : ∀ s : ManagerState,
    (is_running s = true ↔ (s.windows ≠ [] ∧ s.exitFlagSet = false))
    ∧ (terminate_all s).2 = s.windows
    ∧ (terminate_all s).1.windows = []
    ∧ (terminate_all s).1.exitFlagSet = true
    ∧ is_running (terminate_all s).1 = false
    ∧ (terminate_all (terminate_all s).1).1 = (terminate_all s).1
    ∧ (terminate_all ⟨[], s.exitFlagSet⟩).1 = ⟨[], true⟩ := by
  intro s
  refine ⟨?_, rfl, rfl, rfl, rfl, rfl, rfl⟩
  simp [is_running, List.isEmpty_iff]

/-- C8 witness: the lifecycle contract at a concrete two-window state. -/
theorem running_terminate_spec_witness :
    is_running ⟨["bg", "table"], false⟩ = true
    ∧ (terminate_all ⟨["bg", "table"], false⟩).2 = ["bg", "table"]
    ∧ is_running (terminate_all ⟨["bg", "table"], false⟩).1 = false := by
  refine ⟨?_, (running_terminate_spec ⟨["bg", "table"], false⟩).2.1, ?_⟩
  · exact (running_terminate_spec ⟨["bg", "table"], false⟩).1.2 (by simp)
  · exact (running_terminate_spec ⟨["bg", "table"], false⟩).2.2.2.2.1

/-- C9: at most one manager overlay per primary window.  After any call the
dialog attribute holds a visible overlay; a second call while the overlay is
visible raises/focuses the existing one (focusedExisting), changes nothing,
and creates no second dialog; a single call creates at most one dialog. -/
theorem manager_overlay_single : ∀ s : PrimaryWindowState,
    (open_manager s).1.managerDialog = some ⟨true⟩
    ∧ (open_manager (open_manager s).1).1 = (open_manager s).1
    ∧ (open_manager (open_manager s).1).2 = OpenAction.focusedExisting
    ∧ (open_manager s).1.dialogsCreated ≤ s.dialogsCreated + 1
    ∧ (open_manager (open_manager s).1).1.dialogsCreated ≤ s.dialogsCreated + 1 := by
  intro s
  rcases s with ⟨od, n⟩
  rcases od with _ | ⟨v⟩
  · simp [open_manager]
  · rcases v with _ | _ <;> simp [open_manager]

/-- C3 counterexample: "False" is non-empty after trimming and non-numeric
and is one of the boolean-looking sentinel values; the launcher does fall
back to index 0 for it, but prints no warning (the sentinel branch at line
364-365 is silent; only the ValueError branch warns, as "abc" shows). -/
theorem display_sanitize_cex :
    sanitizeScreenId "False" = (0, false)
    ∧ (sanitizeScreenId "False").2 = false
    ∧ sanitizeScreenId "abc" = (0, true) := by
  refine ⟨by decide, by decide, by decide⟩

/-- C3 (amended): every display-index string that is non-empty after trimming
and is non-numeric or a sentinel value falls back to monitor index 0 without
raising or aborting the launch — the window is created on monitor 0 when
monitors were enumerated; a warning is logged only in the non-sentinel
(ValueError) case, while the sentinel values fall back silently. -/
theorem display_sanitize_amended : ∀ s : String, s ≠ "" → pyStrip s = s →
    (s ∈ sentinelStrings → sanitizeScreenId s = (0, false))
    ∧ (s ∉ sentinelStrings → pyInt s = none → sanitizeScreenId s = (0, true))
    ∧ (∀ (m : List Monitor) (m0 : Monitor) (b : String) (p : Nat)
        (cfg : Role → String) (r : Role),
        m.get? 0 = some m0 → cfg r = s →
        (s ∈ sentinelStrings ∨ pyInt s = none) →
        processRole m b p cfg r
          = some (some (mkWindow r b p m0.x m0.y m0.width m0.height))) := by
  intro s hne hstrip
  have hsan : ∀ hcase : s ∈ sentinelStrings ∨ pyInt s = none,
      (sanitizeScreenId s).1 = 0 := by
    intro hcase
    rcases hcase with hc | hc
    · simp [sanitizeScreenId, hc]
    · by_cases hin : s ∈ sentinelStrings
      · simp [sanitizeScreenId, hin]
      · simp [sanitizeScreenId, hin, hc]
  refine ⟨fun hc => by simp [sanitizeScreenId, hc],
    fun hnin hc => by simp [sanitizeScreenId, hnin, hc], ?_⟩
  intro m m0 b p cfg r hget hcfg hcase
  have hm : m ≠ [] := by
    intro hnil
    rw [hnil] at hget
    simp at hget
  have hlen : 0 < m.length := List.length_pos.2 hm
  have hzero : (sanitizeScreenId (pyStrip (cfg r))).1 = 0 := by
    rw [hcfg, hstrip]
    exact hsan hcase
  unfold processRole
  simp only []
  rw [if_neg (by rw [hcfg, hstrip]; exact hne)]
  rw [if_neg (by
    rw [hzero]
    intro hcontra
    omega)]
  rw [if_neg (by simp [List.isEmpty_iff, hm])]
  rw [hzero]
  have : pyListGet m 0 = some m0 := by
    simp [pyListGet]
    simpa using hget
  rw [this]

/-- C3 witness: the sentinel "None" and the malformed "zz" both fall back to
index 0; with one monitor at (5,6) the "None"-configured bg window is created
there rather than the launch failing. -/
theorem display_sanitize_amended_witness :
    sanitizeScreenId "None" = (0, false)
    ∧ sanitizeScreenId "zz" = (0, true)
    ∧ processRole [⟨5, 6, 100, 200⟩] "http://127.0.0.1" 8000
        (fun _ => "None") Role.bg
        = some (some (mkWindow Role.bg "http://127.0.0.1" 8000 5 6 100 200)) := by
  refine ⟨(display_sanitize_amended "None" (by decide) (by decide)).1 (by decide),
    (display_sanitize_amended "zz" (by decide) (by decide)).2.1 (by decide) (by decide),
    ?_⟩
  exact (display_sanitize_amended "None" (by decide) (by decide)).2.2
    [⟨5, 6, 100, 200⟩] ⟨5, 6, 100, 200⟩ "http://127.0.0.1" 8000
    (fun _ => "None") Role.bg (by decide) rfl (Or.inl (by decide))

/-- C4: a role whose sanitized index is at least the number of enumerated
monitors (monitor list non-empty) is skipped: its processRole step creates
nothing, the whole launch behaves exactly as if that role's key were blank
(so every other configured window still launches the same way), and the
skipped role's window name never appears in the created list. -/
theorem oob_monitor_skip : ∀ (m : List Monitor) (b : String) (p : Nat)
    (cfg : Role → String) (r : Role), m ≠ [] →
    pyStrip (cfg r) ≠ "" →
    (m.length : Int) ≤ (sanitizeScreenId (pyStrip (cfg r))).1 →
    processRole m b p cfg r = some none
    ∧ launch_list m b p cfg = launch_list m b p (overrideCfg cfg r "")
    ∧ (∀ ws, launch_list m b p cfg = some ws →
        roleName r ∉ ws.map WindowDesc.name) := by
  intro m b p cfg r hm hs hge
  have hskip : processRole m b p cfg r = some none := processRole_oob hm hs hge
  have hover : ∀ r2, processRole m b p cfg r2
      = processRole m b p (overrideCfg cfg r "") r2 := by
    intro r2
    by_cases he : r2 = r
    · subst he
      rw [hskip]
      have : pyStrip (overrideCfg cfg r2 "" r2) = "" := by
        simp [overrideCfg, pyStrip]
      rw [processRole_blank this]
    · exact processRole_cfg_eq (by simp [overrideCfg, he])
  refine ⟨hskip, launch_list_congr hover, ?_⟩
  intro ws hws hmem
  rcases List.mem_map.1 hmem with ⟨w, hwmem, hname⟩
  rcases launch_list_mem hws hwmem with ⟨r2, hr2⟩
  have : r2 = r := roleName_inj r2 r (by rw [← processRole_name hr2, hname])
  subst this
  rw [hskip] at hr2
  simp at hr2

/-- C4 witness: with one monitor, bg configured to index 5 and table to
index 0, the bg window is skipped, the launch equals the launch with bg
blank, and the created windows are exactly the table window. -/
theorem oob_monitor_skip_witness :
    processRole [⟨0, 0, 1920, 1080⟩] "http://127.0.0.1" 8000
      (fun r => match r with | Role.bg => "5" | Role.dmd => "" | Role.table => "0")
      Role.bg = some none
    ∧ launch_list [⟨0, 0, 1920, 1080⟩] "http://127.0.0.1" 8000
        (fun r => match r with | Role.bg => "5" | Role.dmd => "" | Role.table => "0")
      = launch_list [⟨0, 0, 1920, 1080⟩] "http://127.0.0.1" 8000
        (overrideCfg
          (fun r => match r with | Role.bg => "5" | Role.dmd => "" | Role.table => "0")
          Role.bg "") := by
  refine ⟨(oob_monitor_skip [⟨0, 0, 1920, 1080⟩] "http://127.0.0.1" 8000
    (fun r => match r with | Role.bg => "5" | Role.dmd => "" | Role.table => "0")
    Role.bg (by decide) (by decide) (by decide)).1,
    (oob_monitor_skip [⟨0, 0, 1920, 1080⟩] "http://127.0.0.1" 8000
    (fun r => match r with | Role.bg => "5" | Role.dmd => "" | Role.table => "0")
    Role.bg (by decide) (by decide) (by decide)).2.1⟩

/-- C5: when all three display-index keys are blank after stripping,
launch_all_windows creates zero windows, sets the exit flag and returns
normally (no exception). -/
theorem blank_displays_exit : ∀ (m : List Monitor) (b : String) (p : Nat)
    (cfg : Role → String), (∀ r : Role, pyStrip (cfg r) = "") →
    launch_all_windows m b p cfg = some ([], true) := by
  intro m b p cfg h
  unfold launch_all_windows launch_list
  rw [processRole_blank (h .bg), processRole_blank (h .dmd),
    processRole_blank (h .table)]
  rfl

/-- C5 witness: whitespace-only display keys create no window and set the
exit flag, with a monitor present or not. -/
theorem blank_displays_exit_witness :
    launch_all_windows [⟨0, 0, 1920, 1080⟩] "http://127.0.0.1" 8000
      (fun _ => "  ") = some ([], true)
    ∧ launch_all_windows [] "http://127.0.0.1" 8000 (fun _ => "") = some ([], true) := by
  exact ⟨blank_displays_exit [⟨0, 0, 1920, 1080⟩] "http://127.0.0.1" 8000
      (fun _ => "  ") (fun r => by cases r <;> decide),
    blank_displays_exit [] "http://127.0.0.1" 8000 (fun _ => "")
      (fun r => by cases r <;> decide)⟩

/-- C9 witness: opening twice from the fresh state creates exactly one
visible overlay and the second call focuses the existing one. -/
theorem manager_overlay_single_witness :
    (open_manager (open_manager ⟨none, 0⟩).1).1 = (open_manager ⟨none, 0⟩).1
    ∧ (open_manager (open_manager ⟨none, 0⟩).1).2 = OpenAction.focusedExisting
    ∧ (open_manager (open_manager ⟨none, 0⟩).1).1.dialogsCreated ≤ 1 := by
  refine ⟨(manager_overlay_single ⟨none, 0⟩).2.1,
    (manager_overlay_single ⟨none, 0⟩).2.2.1, ?_⟩
  exact (manager_overlay_single ⟨none, 0⟩).2.2.2.2

/-- C6: the readiness prober is a total boolean function (every urlopen
failure is caught, so it never raises).  It returns true as soon as any
attempt gets any response: with any positive timeout, a response — an
HTTP-level error response included — on the first attempt yields true
immediately, and in general the first responsive attempt starting before the
deadline makes it return true.  If every attempt raises (no response for the
whole window), it returns false. -/
theorem wait_for_server_spec :
    (∀ (timeout interval : Nat) (cost : Nat → Nat) (resp : Nat → Outcome),
      0 < timeout → resp 0 ≠ Outcome.exn →
      wait_for_server resp cost interval timeout = true)
    ∧ (∀ (timeout interval : Nat) (cost : Nat → Nat) (resp : Nat → Outcome) (k : Nat),
      1 ≤ interval → (∀ i, i < k → resp i = Outcome.exn) → resp k ≠ Outcome.exn →
      elapsedBefore cost interval k < timeout →
      wait_for_server resp cost interval timeout = true)
    ∧ (∀ (timeout interval : Nat) (cost : Nat → Nat) (resp : Nat → Outcome),
      (∀ k, resp k = Outcome.exn) →
      wait_for_server resp cost interval timeout = false) := by
  refine ⟨?_, ?_, ?_⟩
  · intro timeout interval cost resp ht hr
    unfold wait_for_server
    simp only [waitGo]
    rw [if_pos ht]
    cases hr0 : resp 0 with
    | ok => rfl
    | httpError => rfl
    | exn => exact absurd hr0 hr
  · intro timeout interval cost resp k hi hfirst hk he
    have hkT : k < timeout :=
      Nat.lt_of_le_of_lt (elapsedBefore_ge cost interval hi k) he
    exact waitGo_first_resp resp cost interval timeout k hfirst hk he
      (timeout + 1) 0 (Nat.zero_le k) (by omega)
  · intro timeout interval cost resp h
    exact waitGo_all_exn resp cost interval timeout h (timeout + 1) 0 0

/-- C6 witness: an HTTP error response on the first attempt yields true; a
server that answers only from the fourth attempt, reached before the 15-tick
deadline, yields true; a host that never answers yields false. -/
theorem wait_for_server_spec_witness :
    wait_for_server (fun _ => Outcome.httpError) (fun _ => 0) 1 15 = true
    ∧ wait_for_server (fun k => if k < 3 then Outcome.exn else Outcome.ok)
        (fun _ => 1) 1 15 = true
    ∧ wait_for_server (fun _ => Outcome.exn) (fun _ => 0) 1 15 = false := by
  refine ⟨wait_for_server_spec.1 15 1 (fun _ => 0) (fun _ => Outcome.httpError)
      (by decide) (by decide), ?_,
    wait_for_server_spec.2.2 15 1 (fun _ => 0) (fun _ => Outcome.exn) (fun k => rfl)⟩
  exact wait_for_server_spec.2.1 15 1 (fun _ => 1)
    (fun k => if k < 3 then Outcome.exn else Outcome.ok) 3 (by decide)
    (fun i hi => by simp [hi]) (by decide) (by decide)

/-- C10 counterexample: with one monitor enumerated, the accepted table
display string "-2" passes the out-of-range check (which only rejects
indices at or above the monitor count) and is passed to the monitor lookup,
where monitors[-2] is out of bounds for one monitor: the launch raises
IndexError (modelled as none).  So not every accepted display-index string
yields an in-bounds lookup. -/
theorem negative_index_cex :
    launch_all_windows [⟨0, 0, 1920, 1080⟩] "http://127.0.0.1" 8000
      (fun r => match r with | Role.table => "-2" | _ => "") = none := by decide

/-- C10 (amended): with monitors enumerated, an accepted display-index string
aborts the launch with IndexError exactly when it parses to a negative index
whose magnitude exceeds the monitor count; a parsed negative index is never
sanitized to 0 nor skipped by the out-of-range check, but passed directly to
the lookup, which resolves it Python-style from the end of the monitor list
when the magnitude is within range. -/
theorem negative_index_amended : ∀ (m : List Monitor) (b : String) (p : Nat)
    (cfg : Role → String) (r : Role),
    (processRole m b p cfg r = none ↔
      (pyStrip (cfg r) ≠ "" ∧ m ≠ [] ∧
        (sanitizeScreenId (pyStrip (cfg r))).1 < 0 ∧
        (m.length : Int) < -(sanitizeScreenId (pyStrip (cfg r))).1))
    ∧ (∀ (n : Int) (m0 : Monitor),
        pyStrip (cfg r) ∉ sentinelStrings →
        pyInt (pyStrip (cfg r)) = some n → n < 0 →
        (-n).toNat ≤ m.length →
        m.get? (m.length - (-n).toNat) = some m0 →
        processRole m b p cfg r
          = some (some (mkWindow r b p m0.x m0.y m0.width m0.height))) := by
  intro m b p cfg r
  constructor
  · by_cases h1 : pyStrip (cfg r) = ""
    · rw [processRole_blank h1]
      simp [h1]
    · unfold processRole
      simp only []
      rw [if_neg h1]
      by_cases h2 : m ≠ [] ∧ (m.length : Int) ≤ (sanitizeScreenId (pyStrip (cfg r))).1
      · rw [if_pos h2]
        constructor
        · intro hc
          simp at hc
        · rintro ⟨-, -, hneg, -⟩
          exfalso
          have h22 := h2.2
          omega
      · rw [if_neg h2]
        by_cases h3 : m.isEmpty
        · rw [if_pos h3]
          have hm : m = [] := List.isEmpty_iff.1 h3
          constructor
          · intro hc
            simp at hc
          · rintro ⟨-, hm2, -⟩
            exact absurd hm hm2
        · rw [if_neg h3]
          have hm : m ≠ [] := fun hh => h3 (by simp [hh])
          have hslt : (sanitizeScreenId (pyStrip (cfg r))).1 < (m.length : Int) := by
            rcases not_and_or.1 h2 with hc | hc
            · exact absurd hm hc
            · omega
          cases hg : pyListGet m (sanitizeScreenId (pyStrip (cfg r))).1 with
          | none =>
            constructor
            · intro _
              by_cases h4 : (0 : Int) ≤ (sanitizeScreenId (pyStrip (cfg r))).1
              · exfalso
                unfold pyListGet at hg
                rw [if_pos h4] at hg
                have hlen2 := List.get?_eq_none.1 hg
                omega
              · refine ⟨h1, hm, by omega, ?_⟩
                unfold pyListGet at hg
                rw [if_neg h4] at hg
                by_cases h5 :
                    (-(sanitizeScreenId (pyStrip (cfg r))).1).toNat ≤ m.length
                · exfalso
                  rw [if_pos h5] at hg
                  have h6 := List.get?_eq_none.1 hg
                  omega
                · omega
            · intro _
              rfl
          | some mm =>
            constructor
            · intro hc
              simp at hc
            · rintro ⟨-, -, hneg, hlen⟩
              exfalso
              unfold pyListGet at hg
              rw [if_neg (by omega)] at hg
              rw [if_neg (by omega)] at hg
              exact Option.noConfusion hg
  · intro n m0 hnin hparse hneg hle hget
    have hs : pyStrip (cfg r) ≠ "" := by
      intro hc
      rw [hc] at hparse
      have h0 : pyInt "" = none := by decide
      rw [h0] at hparse
      exact Option.noConfusion hparse
    have hsid : (sanitizeScreenId (pyStrip (cfg r))).1 = n := by
      simp [sanitizeScreenId, hnin, hparse]
    have hm : m ≠ [] := by
      intro hnil
      subst hnil
      simp at hget
    unfold processRole
    simp only []
    rw [if_neg hs, hsid]
    rw [if_neg (by
      rintro ⟨-, hc⟩
      omega)]
    rw [if_neg (by simp [List.isEmpty_iff, hm])]
    have hpg : pyListGet m n = some m0 := by
      unfold pyListGet
      rw [if_neg (by omega), if_pos hle]
      exact hget
    rw [hpg]

/-- C10 witness: with two monitors, table index "-1" is accepted, not
sanitized to 0 and not skipped: the table window is created on the second
(last) monitor via the negative lookup. -/
theorem negative_index_amended_witness :
    processRole [⟨0, 0, 100, 100⟩, ⟨200, 0, 300, 400⟩] "http://127.0.0.1" 8000
      (fun _ => "-1") Role.table
      = some (some (mkWindow Role.table "http://127.0.0.1" 8000 200 0 300 400)) := by
  exact (negative_index_amended [⟨0, 0, 100, 100⟩, ⟨200, 0, 300, 400⟩]
    "http://127.0.0.1" 8000 (fun _ => "-1") Role.table).2 (-1) ⟨200, 0, 300, 400⟩
    (by decide) (by decide) (by decide) (by decide) (by decide)

/-- C1 counterexample: a boolean-rendered field whose stored value is the
token "1" renders as a switch holding the Python bool True; save_config
writes inp.value back unencoded, so the stored string becomes str(True) =
"True", not "1": saving, reopening and reading the key yields "True", not
the written value "1". -/
theorem config_save_roundtrip_cex :
    readKey (saveRoundTrip [("Settings", [("rotation", "1")])]) "Settings" "rotation"
      = some "True"
    ∧ ("True" : String) ≠ "1" := by
  refine ⟨by decide, by decide⟩

/-- C1 (amended): on save every rendered field's current value is written
back and the full store is flushed, but booleans are not encoded as "1"/"0":
a switch's raw bool is serialized by Python's str().  Hence the round-trip
returns text values unchanged, while a boolean-token value is read back as
"True" or "False" — the same truth value, but not the original token. -/
theorem config_save_roundtrip_amended : ∀ secName key v : String,
    secName ∉ IGNORED_SECTIONS →
    (pyLower v ∉ trueTokens → pyLower v ∉ falseTokens →
      readKey (saveRoundTrip [(secName, [(key, v)])]) secName key = some v)
    ∧ (pyLower v ∈ trueTokens →
      readKey (saveRoundTrip [(secName, [(key, v)])]) secName key = some "True")
    ∧ (pyLower v ∉ trueTokens → pyLower v ∈ falseTokens →
      readKey (saveRoundTrip [(secName, [(key, v)])]) secName key = some "False") := by
  intro secName key v hsec
  refine ⟨?_, ?_, ?_⟩
  · intro h1 h2
    have hw : initialWidgetVal v = .str v := by
      simp [initialWidgetVal, h1, h2]
    simp [saveRoundTrip, renderedInputs, save_config, storeSet, setKey, readKey,
      hsec, hw, pyStr]
  · intro h1
    have hw : initialWidgetVal v = .bool true := by
      simp [initialWidgetVal, h1]
    simp [saveRoundTrip, renderedInputs, save_config, storeSet, setKey, readKey,
      hsec, hw, pyStr]
  · intro h1 h2
    have hw : initialWidgetVal v = .bool false := by
      simp [initialWidgetVal, h1, h2]
    simp [saveRoundTrip, renderedInputs, save_config, storeSet, setKey, readKey,
      hsec, hw, pyStr]

/-- C1 witness: a text value round-trips unchanged; the boolean token "off"
is read back as "False". -/
theorem config_save_roundtrip_amended_witness :
    readKey (saveRoundTrip [("Settings", [("tablerootdir", "/home/u/tables")])])
      "Settings" "tablerootdir" = some "/home/u/tables"
    ∧ readKey (saveRoundTrip [("Media", [("useanims", "off")])])
      "Media" "useanims" = some "False" := by
  refine ⟨(config_save_roundtrip_amended "Settings" "tablerootdir" "/home/u/tables"
      (by decide)).1 (by decide) (by decide),
    (config_save_roundtrip_amended "Media" "useanims" "off"
      (by decide)).2.2 (by decide) (by decide)⟩

/-- C7 counterexample: the key vpxbinpath is path-like (and executable-like)
under the spec's heuristic, yet the renderer gives it a plain text input:
no text-input-plus-native-picker branch exists in vpinfe_config.py. -/
theorem widget_precedence_cex :
    classifyWidget [""] [] "Settings" "vpxbinpath" "/usr/local/bin/VPinballX"
      = Widget.textInput "/usr/local/bin/VPinballX"
    ∧ specPathLike "vpxbinpath" = true
    ∧ Widget.textInput "/usr/local/bin/VPinballX" ≠ Widget.pathPicker true
    ∧ Widget.textInput "/usr/local/bin/VPinballX" ≠ Widget.pathPicker false := by
  refine ⟨by decide, by decide, by decide, by decide⟩

/-- C7 (amended): the widget precedence is: boolean-token values (matched
case-insensitively) render as toggles; the keys startup_collection and theme
render as dropdowns — only inside the Settings section — populated from the
derived option lists with the current value appended when missing; every
other key, path-like keys included, renders as a plain text input (there is
no native-picker branch). -/
theorem widget_precedence_amended : ∀ (co th : List String) (secName key v : String),
    (pyLower v ∈ trueTokens → classifyWidget co th secName key v = Widget.toggle true)
    ∧ (pyLower v ∉ trueTokens → pyLower v ∈ falseTokens →
        classifyWidget co th secName key v = Widget.toggle false)
    ∧ (pyLower v ∉ trueTokens → pyLower v ∉ falseTokens → secName = "Settings" →
        key = "startup_collection" →
        ∃ opts, classifyWidget co th secName key v = Widget.dropdown opts v
          ∧ (∀ x, x ∈ co → x ∈ opts) ∧ (v ≠ "" → v ∈ opts))
    ∧ (pyLower v ∉ trueTokens → pyLower v ∉ falseTokens → secName = "Settings" →
        key = "theme" →
        ∃ opts, classifyWidget co th secName key v = Widget.dropdown opts v
          ∧ (∀ x, x ∈ th → x ∈ opts) ∧ (v ≠ "" → v ∈ opts))
    ∧ (pyLower v ∉ trueTokens → pyLower v ∉ falseTokens →
        ¬(secName = "Settings" ∧ (key = "startup_collection" ∨ key = "theme")) →
        classifyWidget co th secName key v = Widget.textInput v) := by
  intro co th secName key v
  refine ⟨?_, ?_, ?_, ?_, ?_⟩
  · intro h1
    simp [classifyWidget, h1]
  · intro h1 h2
    simp [classifyWidget, h1, h2]
  · intro h1 h2 hsec hkey
    subst hsec
    subst hkey
    by_cases hv : v ≠ "" ∧ v ∉ co
    · refine ⟨co ++ [v], ?_, ?_, ?_⟩
      · simp [classifyWidget, h1, h2, hv]
      · intro x hx
        exact List.mem_append_left _ hx
      · intro _
        exact List.mem_append_right _ (by simp)
    · refine ⟨co, ?_, ?_, ?_⟩
      · simp [classifyWidget, h1, h2, hv]
      · intro x hx
        exact hx
      · intro hne
        rcases not_and_or.1 hv with hc | hc
        · exact absurd hne (by simpa using hc)
        · simpa using hc
  · intro h1 h2 hsec hkey
    subst hsec
    subst hkey
    by_cases hv : v ≠ "" ∧ v ∉ th
    · refine ⟨th ++ [v], ?_, ?_, ?_⟩
      · simp [classifyWidget, h1, h2, hv]
      · intro x hx
        exact List.mem_append_left _ hx
      · intro _
        exact List.mem_append_right _ (by simp)
    · refine ⟨th, ?_, ?_, ?_⟩
      · simp [classifyWidget, h1, h2, hv]
      · intro x hx
        exact hx
      · intro hne
        rcases not_and_or.1 hv with hc | hc
        · exact absurd hne (by simpa using hc)
        · simpa using hc
  · intro h1 h2 h3
    have c1 : ¬(secName = "Settings" ∧ key = "startup_collection") :=
      fun hc => h3 ⟨hc.1, Or.inl hc.2⟩
    have c2 : ¬(secName = "Settings" ∧ key = "theme") :=
      fun hc => h3 ⟨hc.1, Or.inr hc.2⟩
    simp [classifyWidget, h1, h2, c1, c2]

/-- C7 witness: "On" renders as a toggle set to true; the path-like key
vpxbinpath with a non-boolean value renders as a plain text input. -/
theorem widget_precedence_amended_witness :
    classifyWidget [""] ["darkjedi"] "Settings" "joyleft" "On" = Widget.toggle true
    ∧ classifyWidget [""] ["darkjedi"] "Settings" "vpxbinpath" "/opt/vpx"
      = Widget.textInput "/opt/vpx" := by
  refine ⟨(widget_precedence_amended [""] ["darkjedi"] "Settings" "joyleft" "On").1
      (by decide),
    (widget_precedence_amended [""] ["darkjedi"] "Settings" "vpxbinpath" "/opt/vpx").2.2.2.2
      (by decide) (by decide) (by decide)⟩

end VPinFE
